import Mathlib

/-
  Verification development for the CookieBlock-Consent-Crawler.

  Shallow embedding of the crawler sources:
    crawler/enums.py, crawler/browser.py, crawler/cmps/abstract_cmp.py,
    crawler/cmps/cookiebot.py, crawler/cmps/onetrust.py,
    crawler/run_consent_crawl_uc.py, run_consent_crawl_uc.py.

  Machine integers of the source are modelled as Int/Nat (ages, timeouts and
  HTTP status codes are small and never overflow in the source).  Python
  dictionaries keyed by strings are modelled as association lists or as
  functions String -> Option _.  Fallible Python code is modelled with
  Except PyErr.  External libraries (hyperlink URL resolution, selenium,
  psutil, pebble) enter the model only through the values they hand to the
  embedded code, as function parameters.
-/

set_option autoImplicit false

namespace CBCC

/-! ## Enumerations, from crawler/enums.py -/

/-- PageState from crawler/enums.py (state of an index page). -/
inductive PageState where
  | DNS_ERROR
  | OK
  | REDIRECT
  | TIMEOUT
  | BAD_CONTENT_TYPE
  | HTTP_ERROR
  | TCP_ERROR
  | UNKNOWN_ERROR
deriving DecidableEq, Repr

/-- CrawlerType from crawler/enums.py (identifies the CMP crawler). -/
inductive CrawlerType where
  | FAILED
  | COOKIEBOT
  | ONETRUST
  | TERMLY
deriving DecidableEq, Repr

/-- CrawlState from crawler/enums.py (resulting end states of the crawler). -/
inductive CrawlState where
  | SUCCESS
  | CONN_FAILED
  | HTTP_ERROR
  | PARSE_ERROR
  | CMP_NOT_FOUND
  | MALFORMED_URL
  | SSL_ERROR
  | LIBRARY_ERROR
  | REGION_BLOCK
  | MALFORM_RESP
  | NO_COOKIES
  | UNKNOWN
deriving DecidableEq, Repr

/-- CookieCategory from crawler/enums.py. -/
inductive CookieCategory where
  | UNRECOGNIZED
  | ESSENTIAL
  | FUNCTIONAL
  | ANALYTICAL
  | ADVERTISING
  | UNCLASSIFIED
  | SOCIAL_MEDIA
deriving DecidableEq, Repr

/-- Python exception classes that the embedded code can raise. -/
inductive PyErr where
  | typeError
  | keyError
  | attributeError
  | valueError
  | runtimeError
deriving DecidableEq, Repr

/-- Python substring containment: the expression `needle in hay` on str. -/
def strContains (hay needle : String) : Bool :=
  decide (needle.toList <:+: hay.toList)

/-- Python truthiness of an optional string (None and the empty string are
falsy); used for `if error:` and `and location` in browser.py. -/
def pyTruthyStr : Option String → Bool
  | none => false
  | some s => s ≠ ""

/-! ## Orphan sweep, from crawler/run_consent_crawl_uc.py (_kill_browsers_deamon)
    and run_consent_crawl_uc.py (check)

The per-tick loop iterates over psutil.process_iter(); we embed the decision
taken for a single OS process.  A psutil process enters the decision through
its name, its create_time() (epoch seconds; 0.0 is falsy in Python) and its
zombie status. -/

/-- The facts about an OS process that the sweep inspects. -/
structure OsProc where
  name : String
  createTime : Int
  isZombie : Bool
deriving DecidableEq, Repr

/-- What the sweep does to one process in one tick. -/
inductive SweepAction where
  | kill
  | reapZombie
  | leaveAlone
deriving DecidableEq, Repr

/-- Decision of _kill_browsers_deamon (crawler/run_consent_crawl_uc.py,
lines 482-509) for one process:
  if "chrome" not in proc.name(): continue;
  if proc.create_time() and (now - proc.create_time()) >= timeout * 4:
    zombie -> os.waitpid (reap), else -> proc.kill();
  else: only a log line. -/
def killBrowsersDeamonAction (nowTs timeout : Int) (p : OsProc) : SweepAction :=
  if ¬ strContains p.name "chrome" then .leaveAlone
  else if p.createTime ≠ 0 ∧ nowTs - p.createTime ≥ timeout * 4 then
    if p.isZombie then .reapZombie else .kill
  else .leaveAlone

/-- Decision of the nested check() watcher (run_consent_crawl_uc.py,
lines 511-521) for one process:
  if "chrome" not in x.name(): continue;
  if x._create_time:
    if (now - x.create_time()) >= timeout * 4: x.kill()
  else: only a log line. -/
def checkWatcherAction (nowTs timeout : Int) (p : OsProc) : SweepAction :=
  if ¬ strContains p.name "chrome" then .leaveAlone
  else if p.createTime ≠ 0 then
    if nowTs - p.createTime ≥ timeout * 4 then .kill else .leaveAlone
  else .leaveAlone

/-! ## Page load, from crawler/browser.py (Browser.load_page, lines 204-276)

load_page is synchronous; the load-status dictionary is filled in by the
asynchronous CDP callback.  We embed the two reads of the dictionary as two
snapshots: m1 is its content at the first check (after the settle sleep,
line 237) and m2 its content at the re-check after the escape key press
(line 254).  url stands for str(url) after the normalization at line 211
(the root path appended), lastUrl for str(self.last_loaded_url) at the time
of the redirect-resolution loop. -/

/-- Outcome of the driver.get call at line 220. -/
inductive GetOutcome where
  | ok
  | timeoutExc
  | wdExc (nameNotResolved : Bool)
deriving DecidableEq, Repr

/-- The while loop at lines 255-264: tries = 3; each iteration reads
the status of url (present by the guard at line 254) and, for REDIRECT,
the status of last_loaded_url, whose absence raises KeyError and consumes
one try; falling out of the loop returns UNKNOWN_ERROR (line 267). -/
def resolveLoop (m : String → Option PageState) (url lastUrl : String) :
    Nat → PageState
  | 0 => .UNKNOWN_ERROR
  | Nat.succ n =>
    match m url with
    | some s =>
      if s = .REDIRECT then
        match m lastUrl with
        | some s2 => s2
        | none => resolveLoop m url lastUrl n
      else s
    | none => resolveLoop m url lastUrl n

/-- Browser.load_page, lines 204-276.  Transport errors return early
(TIMEOUT at line 223, DNS_ERROR at line 226); a non-DNS WebDriverException
is remembered in error (line 229).  Then: first dictionary check (line 237),
escape key press, second check (line 254) feeding the resolve loop,
`if error: return UNKNOWN_ERROR` (line 268), else `return PageState.OK`
(line 276). -/
def load_page (g : GetOutcome) (m1 m2 : String → Option PageState)
    (url lastUrl : String) : PageState :=
  match g with
  | .timeoutExc => .TIMEOUT
  | .wdExc true => .DNS_ERROR
  | _ =>
    match m1 url with
    | some s => s
    | none =>
      match m2 url with
      | some _ => resolveLoop m2 url lastUrl 3
      | none =>
        match g with
        | .wdExc _ => .UNKNOWN_ERROR
        | _ => .OK

/-! ## Network event classification, from crawler/browser.py
    (Chrome._process_intercepted_request, lines 898-944, and
    Chrome._handle_cdp_response_received, lines 879-896)

URL objects come from the external hyperlink library; the embedding keeps
their text and their absolute flag and receives URL parsing (URL.from_text)
and relative resolution (url.click) as parameters. -/

/-- A hyperlink URL, reduced to what the handlers inspect. -/
structure Url where
  text : String
  absolute : Bool
deriving DecidableEq, Repr

/-- What _process_intercepted_request reads out of one intercepted
response: response.get("error_reason"), response["http_status"], and the
Location / Content-Type response headers (headers.get). -/
structure CdpResponse where
  errorReason : Option String
  httpStatus : Int
  location : Option String
  contentType : Option String
deriving DecidableEq, Repr

/-- The state the handlers mutate: the per-URL load-status dictionary
(keyed by str(url)) and self.last_loaded_url. -/
structure TrackerState where
  loadStatus : List (String × PageState)
  lastLoadedUrl : Option Url
deriving DecidableEq, Repr

/-- Dictionary write self._load_status[k] = v. -/
def setStatus (m : List (String × PageState)) (k : String) (v : PageState) :
    List (String × PageState) :=
  (k, v) :: m

/-- Dictionary read (latest write wins). -/
def getStatus (m : List (String × PageState)) (k : String) : Option PageState :=
  (m.find? (fun p => p.1 = k)).map (fun p => p.2)

/-- Lines 923-926: loc = URL.from_text(location); relative Location
values are resolved against the request URL with url.click. -/
def resolveLocation (fromText : String → Url) (click : Url → Url → Url)
    (reqUrl : Url) (resp : CdpResponse) : Url :=
  let loc0 := fromText ((resp.location).getD "")
  if ¬ loc0.absolute then click reqUrl loc0 else loc0

/-- Chrome._process_intercepted_request, lines 898-944.  Only events whose
request URL equals self.last_loaded_url update the state (line 902).  A
truthy error_reason maps NameNotResolved to DNS_ERROR, TimedOut to TIMEOUT
and anything else to TCP_ERROR; otherwise a 3xx status with a truthy
Location header records REDIRECT and advances last_loaded_url to the
absolute resolution of the Location value, a status of at least 400 records
HTTP_ERROR, and everything else records OK.  The Content-Type header is
read (line 921) but only logged.  fromText embeds URL.from_text and click
embeds url.click of the hyperlink library. -/
def processInterceptedRequest (fromText : String → Url)
    (click : Url → Url → Url) (st : TrackerState) (reqUrl : Url)
    (resp : CdpResponse) : TrackerState :=
  if st.lastLoadedUrl ≠ some reqUrl then st
  else if pyTruthyStr resp.errorReason then
    if resp.errorReason = some "NameNotResolved" then
      { st with loadStatus := setStatus st.loadStatus reqUrl.text .DNS_ERROR }
    else if resp.errorReason = some "TimedOut" then
      { st with loadStatus := setStatus st.loadStatus reqUrl.text .TIMEOUT }
    else
      { st with loadStatus := setStatus st.loadStatus reqUrl.text .TCP_ERROR }
  else
    if 300 ≤ resp.httpStatus ∧ resp.httpStatus < 400 ∧ pyTruthyStr resp.location then
      { loadStatus := setStatus st.loadStatus reqUrl.text .REDIRECT,
        lastLoadedUrl := some (resolveLocation fromText click reqUrl resp) }
    else if resp.httpStatus ≥ 400 then
      { st with loadStatus := setStatus st.loadStatus reqUrl.text .HTTP_ERROR }
    else
      { st with loadStatus := setStatus st.loadStatus reqUrl.text .OK }

/-- Spec-side classification table: the table of the specification with
its BAD_CONTENT_TYPE clause removed (the source never produces
BAD_CONTENT_TYPE; a disallowed content type falls through to OK).  Written
from the amended claim wording, to be compared with
processInterceptedRequest. -/
def classifyEventAmended (resp : CdpResponse) : PageState :=
  if pyTruthyStr resp.errorReason then
    if resp.errorReason = some "NameNotResolved" then .DNS_ERROR
    else if resp.errorReason = some "TimedOut" then .TIMEOUT
    else .TCP_ERROR
  else if 300 ≤ resp.httpStatus ∧ resp.httpStatus < 400 ∧ pyTruthyStr resp.location then
    .REDIRECT
  else if resp.httpStatus ≥ 400 then .HTTP_ERROR
  else .OK

/-- Chrome._handle_cdp_response_received, lines 879-896: the callback that
is actually registered on Network.responseReceived (line 873).  It records
HTTP_ERROR for a status of exactly 404 and OK for a 2xx status, for the
event URL itself, and records nothing else. -/
def handleCdpResponseReceived (st : TrackerState) (method url : String)
    (httpStatus : Int) : TrackerState :=
  if method = "Network.responseReceived" then
    let st1 :=
      if httpStatus = 404 then
        { st with loadStatus := setStatus st.loadStatus url .HTTP_ERROR }
      else st
    if 200 ≤ httpStatus ∧ httpStatus < 300 then
      { st1 with loadStatus := setStatus st1.loadStatus url .OK }
    else st1
  else st

/-! ## OneTrust Variant B script scan, from crawler/cmps/onetrust.py
    (OnetrustCMP._variantB_parse_script_for_object, lines 748-822) -/

/-- Python str whitespace as matched by the re module \s class
(space, tab, newline, carriage return, vertical tab, form feed). -/
def isPyWs (c : Char) : Bool :=
  c = ' ' ∨ c = '\t' ∨ c = '\n' ∨ c = '\r' ∨ c = '\x0b' ∨ c = '\x0c'

/-- Python str.strip(): drop leading and trailing whitespace. -/
def pyStrip (s : List Char) : List Char :=
  ((s.dropWhile isPyWs).reverse.dropWhile isPyWs).reverse

/-- re.sub of newline by space (line 773). -/
def purgeNewlines (s : List Char) : List Char :=
  s.map (fun c => if c = '\n' then ' ' else c)

/-- Greedy run of regex whitespace, returning the consumed count and the
rest; implements a maximal-munch \s* (exact here because the following
literal in the pattern never starts with whitespace). -/
def skipWs : List Char → Nat × List Char
  | [] => (0, [])
  | c :: rest =>
    if isPyWs c then
      let (n, r) := skipWs rest
      (n + 1, r)
    else (0, c :: rest)

/-- Consume a literal, or fail. -/
def matchLit : List Char → List Char → Option (List Char)
  | [], s => some s
  | _ :: _, [] => none
  | l :: ls, c :: cs => if c = l then matchLit ls cs else none

/-- Match of the regex  ,\s*Groups:\s*\[  (line 776) anchored at the head
of s.  On success returns the suffix right after the opening bracket,
which is where matchobj.end(0) points. -/
def groupsMatchAt (s : List Char) : Option (List Char) :=
  match s with
  | ',' :: rest =>
    let (_, r1) := skipWs rest
    match matchLit ("Groups:".toList) r1 with
    | some r2 =>
      let (_, r3) := skipWs r2
      match r3 with
      | '[' :: r4 => some r4
      | _ => none
    | none => none
  | _ => none

/-- re.search for  ,\s*Groups:\s*\[ : leftmost match; returns the suffix
after the opening bracket (the position matchobj.end(0)). -/
def findGroups : List Char → Option (List Char)
  | [] => none
  | c :: rest =>
    match groupsMatchAt (c :: rest) with
    | some after => some after
    | none => findGroups rest

/-- One character of the bracket scan at lines 786-793: toggle the
double-quote state first, then, when outside quotes, adjust the bracket
depth.  State is (open_brackets, in_quotes). -/
def scanStep (c : Char) (st : Nat × Bool) : Nat × Bool :=
  (if (if c = '"' then !st.2 else st.2) then st.1
   else if c = '[' then st.1 + 1
   else if c = ']' then st.1 - 1
   else st.1,
   if c = '"' then !st.2 else st.2)

/-- Scanner state after consuming a whole character list (reference
fold used to specify where the while loop stops). -/
def scanFold (s : List Char) (st : Nat × Bool) : Nat × Bool :=
  s.foldl (fun a c => scanStep c a) st

/-- The while loop at lines 783-793:
  while i < len(script) and open_brackets > 0: step; i += 1.
Returns how many characters were consumed (the final i minus the start). -/
def scan : List Char → Nat × Bool → Nat
  | [], _ => 0
  | c :: rest, st =>
    if st.1 = 0 then 0
    else scan rest (scanStep c st) + 1

/-- Data dictionary of Variant B; never produced by the current source
(js2py evaluation is commented out), so only its absence is observable. -/
def VariantBDict : Type := Unit

/-- Lines 770-776: content.strip(), the newline purge, and the re.search
for the Groups array literal. -/
def variantBSearch (content : String) : Option (List Char) :=
  findGroups (purgeNewlines (pyStrip content.toList))

/-- OnetrustCMP._variantB_parse_script_for_object, lines 748-822, after the
fetch: on a non-OK PageState return LIBRARY_ERROR (line 763); otherwise
strip the content, purge newlines, search for the Groups array literal;
when found, the bracket scan runs and the function returns LIBRARY_ERROR
with no data (lines 800-810, evaluation of the extracted JavaScript object
is unsupported); when not found it returns PARSE_ERROR (lines 811-816). -/
def variantB_parse_script_for_object (state : PageState) (content : String) :
    Option VariantBDict × CrawlState × String :=
  if state ≠ .OK then
    (none, .LIBRARY_ERROR, "Unable to fetch the script due to its PageState")
  else
    match variantBSearch content with
    | some _ =>
      (none, .LIBRARY_ERROR,
        "ONETRUST: VARIANT B is not supported right now. Please report to the developer")
    | none =>
      (none, .PARSE_ERROR,
        "ONETRUST: VARIANT B: Failed to find desired javascript object in Onetrust consent script.")

/-! ## CMP construction and the coordinator, from
    crawler/cmps/abstract_cmp.py (AbstractCMP.__init__, lines 18-25),
    crawler/cmps/cookiebot.py (CookiebotCMP.__init__, lines 67-68),
    crawler/cmps/onetrust.py (OnetrustCMP.__init__, lines 136-137) and
    crawler/browser.py (CBConsentCrawlerBrowser.crawl_cmps, lines 444-503) -/

/-- The parameters of AbstractCMP.__init__ after self: logger, name,
browser_id.  None has a default value. -/
def abstractCMPInitParams : List String := ["logger", "name", "browser_id"]

/-- Python keyword-argument binding for AbstractCMP.__init__: a call
providing exactly the given keyword names raises TypeError when a required
parameter is missing. -/
def bindAbstractCMPInit (provided : List String) : Except PyErr Unit :=
  if abstractCMPInitParams.all (fun p => provided.contains p) then .ok ()
  else .error .typeError

/-- CookiebotCMP.__init__ calls super().__init__(name="Cookiebot",
logger=logger) — browser_id is not supplied. -/
def constructCookiebotCMP : Except PyErr Unit :=
  bindAbstractCMPInit ["name", "logger"]

/-- OnetrustCMP.__init__ calls super().__init__(name="Onetrust",
logger=logger) — browser_id is not supplied. -/
def constructOnetrustCMP : Except PyErr Unit :=
  bindAbstractCMPInit ["name", "logger"]

/-- What a detector scrape call returns when unpacked at line 481 of
browser.py: the OneTrust scrape is a 3-tuple (state, message, data); the
Cookiebot scrape in cookiebot.py returns only a 2-tuple (state, message). -/
inductive ScrapeRet (α : Type) where
  | triple (st : CrawlState) (msg : String) (cd : List α)
  | pair (st : CrawlState) (msg : String)

/-- Tuple unpacking  crawl_state, message, consent_data = ...  of a scrape
return value; a 2-tuple raises ValueError (not enough values to unpack). -/
def unpack3 {α : Type} : ScrapeRet α → Except PyErr (CrawlState × String × List α)
  | .triple st msg cd => .ok (st, msg, cd)
  | .pair _ _ => .error .valueError

/-- A ConsentCrawlResult row as constructed inside crawl_cmps. -/
structure ConsentCrawlResultRec where
  browser_id : Int
  visit_id : Int
  crawl_state : CrawlState
  cmp_type : CrawlerType
  report : String
deriving DecidableEq, Repr

/-- Observable calls crawl_cmps makes into the detectors. -/
inductive CmpEvent where
  | presenceCheck (t : CrawlerType)
  | scrapeCall (t : CrawlerType)
deriving DecidableEq, Repr

/-- Insertion order of the presence_check_methods and crawl_methods
dictionaries in crawl_cmps (lines 458-469): ONETRUST first, COOKIEBOT
second; the Termly entries are commented out.  Python dictionaries iterate
in insertion order, which fixes the priority. -/
def cmpPriorityOrder : List CrawlerType := [.ONETRUST, .COOKIEBOT]

/-- The two loops of crawl_cmps from line 471 on, given already-constructed
detectors: the first loop fills the results dictionary with every presence
check; the second loop iterates the results in the same order and, at the
first truthy entry, unpacks that detector's scrape and returns its result
immediately (line 494); when nothing matched, the CMP_NOT_FOUND tuple of
lines 495-503 is returned.  presence abstracts check_presence on the
current page and scrape abstracts the crawl_methods entries. -/
def crawlCmpsDispatch {α : Type} (presence : CrawlerType → Bool)
    (scrape : CrawlerType → ScrapeRet α) (browserId visitId : Int) :
    Except PyErr (CrawlerType × CrawlState × List α × ConsentCrawlResultRec) :=
  match cmpPriorityOrder.find? presence with
  | some t =>
    match unpack3 (scrape t) with
    | .error e => .error e
    | .ok (st, msg, cd) =>
      .ok (t, st, cd, ⟨browserId, visitId, st, t, msg⟩)
  | none =>
    .ok (.FAILED, .CMP_NOT_FOUND, [],
      ⟨browserId, visitId, .CMP_NOT_FOUND, .FAILED,
        "No known Consent Management Platform found on the given URL."⟩)

/-- The detector calls the two loops perform: every presence check runs
(first loop), then exactly the first matching detector is scraped. -/
def crawlCmpsEvents (presence : CrawlerType → Bool) : List CmpEvent :=
  cmpPriorityOrder.map .presenceCheck ++
    (match cmpPriorityOrder.find? presence with
     | some t => [.scrapeCall t]
     | none => [])

/-- CBConsentCrawlerBrowser.crawl_cmps, lines 444-503, in full: after the
browser_id None check (line 447), CookiebotCMP(self.logger) is constructed
(line 454) and then OnetrustCMP(self.logger) (line 455), before any
presence check; each construction raising propagates immediately.  The
second component lists the detector calls that were reached. -/
def crawl_cmps {α : Type} (browserIdIsNone : Bool)
    (presence : CrawlerType → Bool) (scrape : CrawlerType → ScrapeRet α)
    (browserId visitId : Int) :
    Except PyErr (CrawlerType × CrawlState × List α × ConsentCrawlResultRec)
      × List CmpEvent :=
  if browserIdIsNone then (.error .runtimeError, [])
  else
    match constructCookiebotCMP with
    | .error e => (.error e, [])
    | .ok _ =>
      match constructOnetrustCMP with
      | .error e => (.error e, [])
      | .ok _ =>
        (crawlCmpsDispatch presence scrape browserId visitId,
          crawlCmpsEvents presence)

/-! ## Orchestrator result handling, from crawler/run_consent_crawl_uc.py
    (run_domain_with_timeout, lines 208-264, and the result-collection
    loop of run_crawler, lines 669-740) -/

/-- How one run_domain call inside the worker ends: it returns its result
triple, or raises one of the exception classes listed at lines 221-227
(TimeoutError, WebDriverException, the urllib3 timeout and retry errors,
TimeoutExpired), or raises any other exception (line 246). -/
inductive RunDomainOutcome (α β : Type) where
  | value (res : ConsentCrawlResultRec) (cds : List α) (cookies : List β)
  | raisesRetryable
  | raisesOther (excText : String)

/-- run_domain_with_timeout, lines 208-264: the result triple together
with the URLs appended to collected_data/retry_list.txt.  Every branch
returns exactly one ConsentCrawlResult; both except branches synthesize a
FAILED / LIBRARY_ERROR row. -/
def run_domain_with_timeout {α β : Type} (browserId visitId : Int)
    (siteUrl : String) (o : RunDomainOutcome α β) :
    (ConsentCrawlResultRec × List α × List β) × List String :=
  match o with
  | .value res cds cookies => ((res, cds, cookies), [])
  | .raisesRetryable =>
    ((⟨browserId, visitId, .LIBRARY_ERROR, .FAILED,
        "Failure: TimeoutError: " ++ siteUrl⟩, [], []), [siteUrl])
  | .raisesOther excText =>
    ((⟨browserId, visitId, .LIBRARY_ERROR, .FAILED,
        "Failure: " ++ excText⟩, [], []), [])

/-- How the pool delivers one visit at next(it) (lines 714, 726, 733): the
worker's triple arrives; or pebble raises TimeoutError because the visit
exceeded the per-visit timeout; or pebble raises another exception (for
example ProcessExpired when the worker process died). -/
inductive PoolDelivery (α β : Type) where
  | value (res : ConsentCrawlResultRec) (cds : List α) (cookies : List β)
  | poolTimeout
  | raisesOtherExc

/-- The body of the multiprocess collection loop of run_crawler for one
visit (lines 707-738): a delivered triple is merged into the session (one
ConsentCrawlResult row plus its data); a TimeoutError or any other
exception appends the site URL to retry_list.txt and merges nothing.
Returns the ConsentCrawlResult rows handed to the persistence boundary and
the retry-list appends. -/
def collectVisitResult {α β : Type} (siteUrl : String)
    (d : PoolDelivery α β) : List ConsentCrawlResultRec × List String :=
  match d with
  | .value res _ _ => ([res], [])
  | .poolTimeout => ([], [siteUrl])
  | .raisesOtherExc => ([], [siteUrl])

/-- The single-browser loop body of run_crawler (lines 670-687): each visit
goes through run_domain_with_timeout and its one result row is merged. -/
def singleBrowserVisit {α β : Type} (browserId visitId : Int)
    (siteUrl : String) (o : RunDomainOutcome α β) :
    List ConsentCrawlResultRec :=
  [(run_domain_with_timeout browserId visitId siteUrl o).1.1]

/-! ## OneTrust Variant A JSON parsing, from crawler/cmps/onetrust.py
    (OnetrustCMP._variantA_get_and_parse_json, lines 515-719, and the
    Variant A tail of OnetrustCMP.scrape, lines 215-230 and 287) -/

/-- A decoded JSON value as produced by json.loads. -/
inductive Json where
  | str (s : String)
  | num (n : Int)
  | pybool (b : Bool)
  | null
  | arr (elems : List Json)
  | obj (fields : List (String × Json))

/-- Python == between a decoded value and a string literal. -/
def Json.eqStr : Json → String → Bool
  | .str t, s => t = s
  | _, _ => false

/-- Python subscript j[k] with a string key: dictionary lookup (KeyError
when missing), TypeError on any other value. -/
def pyGetItem (j : Json) (k : String) : Except PyErr Json :=
  match j with
  | .obj fields =>
    match fields.find? (fun p => p.1 = k) with
    | some p => .ok p.2
    | none => .error .keyError
  | _ => .error .typeError

/-- Python membership k in j: key test on dictionaries, element test on
lists, substring test on strings, TypeError otherwise. -/
def pyContains (j : Json) (k : String) : Except PyErr Bool :=
  match j with
  | .obj fields => .ok (fields.any (fun p => p.1 = k))
  | .arr elems => .ok (elems.any (fun x => x.eqStr k))
  | .str s => .ok (strContains s k)
  | _ => .error .typeError

/-- Python iteration for x in j: list elements, dictionary keys, the
characters of a string; TypeError otherwise. -/
def pyIter (j : Json) : Except PyErr (List Json) :=
  match j with
  | .arr elems => .ok elems
  | .obj fields => .ok (fields.map (fun p => Json.str p.1))
  | .str s => .ok (s.toList.map (fun c => Json.str (String.singleton c)))
  | _ => .error .typeError

/-- Python truthiness of a decoded value. -/
def pyTruthyJson : Json → Bool
  | .null => false
  | .pybool b => b
  | .num n => n ≠ 0
  | .str s => s ≠ ""
  | .arr elems => ¬ elems.isEmpty
  | .obj fields => ¬ fields.isEmpty

/-- A regex search argument must be a string; anything else raises
TypeError (the category lookups regex-search cat_name). -/
def asRegexArg : Json → Except PyErr String
  | .str s => .ok s
  | _ => .error .typeError

/-- One ConsentData row as appended at lines 626-637 and 659-670.  The
visit and browser_id columns are fixed per visit and omitted.  The
category keyword tables (category_lookup_en / category_lookup_de) are a
data table the embedding receives as a parameter. -/
structure ConsentDataM where
  name : Json
  domain : Json
  cat_id : CookieCategory
  cat_name : Json
  purpose : Option Json
  expiry : Option Json

/-- The per-cookie field extraction at lines 620-637 (identical at
lines 651-670): purpose from description when present, expiry from Length
when present overridden by "session" when IsSession is truthy, then the
mandatory Name and Host lookups (KeyError when absent). -/
def extractCookie (catId : CookieCategory) (catName : Json) (c : Json) :
    Except PyErr ConsentDataM := do
  let hasDesc ← pyContains c "description"
  let purpose ←
    if hasDesc then do
      let v ← pyGetItem c "description"
      pure (some v)
    else pure none
  let hasLen ← pyContains c "Length"
  let expiry0 ←
    if hasLen then do
      let v ← pyGetItem c "Length"
      pure (some v)
    else pure none
  let hasSess ← pyContains c "IsSession"
  let expiry ←
    if hasSess then do
      let v ← pyGetItem c "IsSession"
      pure (if pyTruthyJson v then some (Json.str "session") else expiry0)
    else pure expiry0
  let name ← pyGetItem c "Name"
  let host ← pyGetItem c "Host"
  pure ⟨name, host, catId, catName, purpose, expiry⟩

/-- The cookie loops: data.append accumulates into the shared data list,
so rows appended before an exception stay collected (the exception ends
the loop and is reported alongside the rows gathered so far). -/
def extractCookieList (catId : CookieCategory) (catName : Json) :
    List Json → List ConsentDataM → List ConsentDataM × Option PyErr
  | [], acc => (acc, none)
  | c :: rest, acc =>
    match extractCookie catId catName c with
    | .error e => (acc, some e)
    | .ok cd => extractCookieList catId catName rest (acc ++ [cd])

/-- The Hosts loop at lines 645-671: hosts without a Cookies key are
skipped; each Cookies list goes through the cookie extraction. -/
def processHosts (catId : CookieCategory) (catName : Json) :
    List Json → List ConsentDataM → List ConsentDataM × Option PyErr
  | [], acc => (acc, none)
  | h :: rest, acc =>
    match pyContains h "Cookies" with
    | .error e => (acc, some e)
    | .ok false => processHosts catId catName rest acc
    | .ok true =>
      match pyGetItem h "Cookies" with
      | .error e => (acc, some e)
      | .ok cj =>
        match pyIter cj with
        | .error e => (acc, some e)
        | .ok cs =>
          match extractCookieList catId catName cs acc with
          | (acc2, some e) => (acc2, some e)
          | (acc2, none) => processHosts catId catName rest acc2

/-- One group of the Groups loop, lines 607-676: groups without a
GroupName are skipped; the category lookup regex-searches the group name;
FirstPartyCookies and Hosts are both optional. -/
def processGroup (catLookup : String → CookieCategory) (g : Json)
    (acc : List ConsentDataM) : List ConsentDataM × Option PyErr :=
  match pyContains g "GroupName" with
  | .error e => (acc, some e)
  | .ok false => (acc, none)
  | .ok true =>
    match pyGetItem g "GroupName" with
    | .error e => (acc, some e)
    | .ok catName =>
      match asRegexArg catName with
      | .error e => (acc, some e)
      | .ok catNameS =>
        let catId := catLookup catNameS
        let step1 :=
          match pyContains g "FirstPartyCookies" with
          | .error e => (acc, some e)
          | .ok false => (acc, none)
          | .ok true =>
            match pyGetItem g "FirstPartyCookies" with
            | .error e => (acc, some e)
            | .ok fp =>
              match pyIter fp with
              | .error e => (acc, some e)
              | .ok cs => extractCookieList catId catName cs acc
        match step1 with
        | (acc1, some e) => (acc1, some e)
        | (acc1, none) =>
          match pyContains g "Hosts" with
          | .error e => (acc1, some e)
          | .ok false => (acc1, none)
          | .ok true =>
            match pyGetItem g "Hosts" with
            | .error e => (acc1, some e)
            | .ok hs =>
              match pyIter hs with
              | .error e => (acc1, some e)
              | .ok hostList => processHosts catId catName hostList acc1

/-- The group loop over DomainData.Groups. -/
def processGroups (catLookup : String → CookieCategory) :
    List Json → List ConsentDataM → List ConsentDataM × Option PyErr
  | [], acc => (acc, none)
  | g :: rest, acc =>
    match processGroup catLookup g acc with
    | (acc1, some e) => (acc1, some e)
    | (acc1, none) => processGroups catLookup rest acc1

/-- How the body of one ruleset iteration ends: completed normally or with
an exception caught by except (AttributeError, KeyError) at line 677 (the
cookie-count break check at lines 702-704 then runs); ended by a continue
statement (the break check is skipped); or an uncaught exception. -/
inductive RulesetEnd where
  | completed
  | continued
  | fatal (e : PyErr)

/-- The except clause at line 677 catches AttributeError and KeyError;
everything else propagates. -/
def rsClassify (acc : List ConsentDataM) (e : PyErr) :
    List ConsentDataM × RulesetEnd :=
  if e = .keyError ∨ e = .attributeError then (acc, .completed)
  else (acc, .fatal e)

/-- The lazy any(l in culture for l in ["en", "en-GB", "en-US"]) check at
lines 580-583. -/
def cultureIsEnglish (culture : Json) : Except PyErr Bool := do
  let b1 ← pyContains culture "en"
  if b1 then pure true
  else do
    let b2 ← pyContains culture "en-GB"
    if b2 then pure true
    else pyContains culture "en-US"

/-- The try block at lines 556-700 for one decoded ruleset JSON: the
DomainData / Language / Culture / Groups checks (each missing key is a
continue), the language selection between the English and German category
tables (default English), and the Groups loop. -/
def processRulesetJson (catEn catDe : String → CookieCategory) (jd : Json)
    (acc : List ConsentDataM) : List ConsentDataM × RulesetEnd :=
  match pyContains jd "DomainData" with
  | .error e => rsClassify acc e
  | .ok false => (acc, .continued)
  | .ok true =>
    match pyGetItem jd "DomainData" with
    | .error e => rsClassify acc e
    | .ok jsonBody =>
      match pyContains jsonBody "Language" with
      | .error e => rsClassify acc e
      | .ok false => (acc, .continued)
      | .ok true =>
        match pyGetItem jsonBody "Language" with
        | .error e => rsClassify acc e
        | .ok langObj =>
          match pyContains langObj "Culture" with
          | .error e => rsClassify acc e
          | .ok false => (acc, .continued)
          | .ok true =>
            match pyGetItem langObj "Culture" with
            | .error e => rsClassify acc e
            | .ok culture =>
              match cultureIsEnglish culture with
              | .error e => rsClassify acc e
              | .ok isEn =>
                let pickGerman : Except PyErr Bool :=
                  if isEn then .ok false
                  else do
                    let b ← pyContains culture "de"
                    pure b
                match pickGerman with
                | .error e => rsClassify acc e
                | .ok isDe =>
                  let catLookup := if isEn then catEn
                    else if isDe then catDe else catEn
                  match pyContains jsonBody "Groups" with
                  | .error e => rsClassify acc e
                  | .ok false => (acc, .continued)
                  | .ok true =>
                    match pyGetItem jsonBody "Groups" with
                    | .error e => rsClassify acc e
                    | .ok groupsJ =>
                      match pyIter groupsJ with
                      | .error e => rsClassify acc e
                      | .ok glist =>
                        match processGroups catLookup glist acc with
                        | (acc1, some e) => rsClassify acc1 e
                        | (acc1, none) => (acc1, .completed)

/-- The ruleset URL built at line 539. -/
def rulesetUrl (domainUrl ddId rsId lang : String) : String :=
  domainUrl ++ "/consent/" ++ ddId ++ "/" ++ rsId ++ "/" ++ lang ++ ".json"

/-- The ruleset loop at lines 538-704.  fetch embeds
webdriver.get_content plus json.loads: the PageState of the GET and the
decoded JSON (none when json.loads raises JSONDecodeError).  A non-OK
PageState and a decode error both continue to the next ruleset; after a
normally completed (or caught-exception) body, the loop breaks as soon as
the cookie count is positive.  cookie_count is incremented exactly at each
data.append (lines 639 and 671), so it always equals len(data); the
embedding therefore carries only the data list. -/
def variantALoop (catEn catDe : String → CookieCategory)
    (fetch : String → PageState × Option Json) (domainUrl ddId : String) :
    List (String × String) → List ConsentDataM →
      Except PyErr (List ConsentDataM)
  | [], acc => .ok acc
  | (lang, i) :: rest, acc =>
    let (state, mj) := fetch (rulesetUrl domainUrl ddId i lang)
    if state ≠ .OK then
      variantALoop catEn catDe fetch domainUrl ddId rest acc
    else
      match mj with
      | none => variantALoop catEn catDe fetch domainUrl ddId rest acc
      | some jd =>
        match processRulesetJson catEn catDe jd acc with
        | (_, .fatal e) => .error e
        | (acc1, .continued) =>
          variantALoop catEn catDe fetch domainUrl ddId rest acc1
        | (acc1, .completed) =>
          if acc1.length > 0 then .ok acc1
          else variantALoop catEn catDe fetch domainUrl ddId rest acc1

/-- OnetrustCMP._variantA_get_and_parse_json, lines 515-719: runs the
ruleset loop from an empty data list and then takes the final branch at
lines 706-719 — cookie count zero returns (0, NO_COOKIES, report, data),
otherwise (count, SUCCESS, report, []) — the SUCCESS branch returns the
empty list literal, not the collected data. -/
def variantA_get_and_parse_json (catEn catDe : String → CookieCategory)
    (fetch : String → PageState × Option Json) (domainUrl ddId : String)
    (rulesetIds : List (String × String)) :
    Except PyErr (Nat × CrawlState × String × List ConsentDataM) :=
  match variantALoop catEn catDe fetch domainUrl ddId rulesetIds [] with
  | .error e => .error e
  | .ok data =>
    if data.length = 0 then
      .ok (0, .NO_COOKIES,
        "ONETRUST: VARIANT A: Could not extract any cookies for ddid: "
          ++ ddId ++ ".", data)
    else
      .ok (data.length, .SUCCESS,
        "ONETRUST: VARIANT A: Cookies Extracted: " ++ toString data.length,
        [])

/-- The Variant A tail of OnetrustCMP.scrape (lines 215-230 and 287): a
non-SUCCESS state from part 3 is returned with an empty list (line 224);
SUCCESS is returned with the data list part 3 produced (line 287). -/
def onetrust_scrape_variantA (catEn catDe : String → CookieCategory)
    (fetch : String → PageState × Option Json) (domainUrl ddId : String)
    (rulesetIds : List (String × String)) :
    Except PyErr (CrawlState × String × List ConsentDataM) :=
  match variantA_get_and_parse_json catEn catDe fetch domainUrl ddId rulesetIds with
  | .error e => .error e
  | .ok (cookieCount, state, report, data) =>
    if state ≠ .SUCCESS then .ok (state, report, [])
    else .ok (.SUCCESS,
      "Extracted " ++ toString cookieCount ++ " cookie entries.", data)

/-! ## Cookiebot scrape tail, from crawler/cmps/cookiebot.py
    (CookiebotCMP.scrape, lines 195-204) -/

/-- The end of CookiebotCMP.scrape: zero extracted cookies return
NO_COOKIES, otherwise SUCCESS — in both cases a 2-tuple of state and
report only; the scrape never returns a record list (the records go
through store_consent_data instead). -/
def cookiebot_scrape_tail (cookieCount : Nat) (ccUrl : String) :
    CrawlState × String :=
  if cookieCount = 0 then
    (.NO_COOKIES, "COOKIEBOT: No cookies found in " ++ ccUrl)
  else
    (.SUCCESS, "Extracted " ++ toString cookieCount ++ " cookie entries.")

/-! ## Concrete sample inputs used by the theorems -/

/-- A well-formed OneTrust per-language ruleset JSON holding exactly one
first-party cookie. -/
def sampleRulesetJson : Json :=
  .obj [("DomainData", .obj
    [("Language", .obj [("Culture", .str "en")]),
     ("Groups", .arr
       [.obj [("GroupName", .str "Strictly Necessary Cookies"),
              ("FirstPartyCookies", .arr
                [.obj [("Name", .str "session_id"),
                       ("Host", .str "example.com")]])]])])]

/-- A fetch oracle that answers every ruleset URL with the sample JSON. -/
def sampleFetch : String → PageState × Option Json :=
  fun _ => (.OK, some sampleRulesetJson)

/-- A category table standing in for the keyword-regex lookup (a data
table, external to the algorithms under claim). -/
def sampleCatLookup : String → CookieCategory := fun _ => .ESSENTIAL

/-- The one ConsentData row the sample input produces. -/
def sampleConsentRow : ConsentDataM :=
  ⟨.str "session_id", .str "example.com", .ESSENTIAL,
   .str "Strictly Necessary Cookies", none, none⟩

/-- A page on which both the OneTrust and the Cookiebot presence patterns
match. -/
def bothPresent : CrawlerType → Bool :=
  fun t => t == .ONETRUST || t == .COOKIEBOT

/-- A page on which no presence pattern matches. -/
def nonePresent : CrawlerType → Bool := fun _ => false

/-- Scrape results for the dispatch theorems: the OneTrust scrape fails
with PARSE_ERROR (a 3-tuple), the Cookiebot scrape would be a 2-tuple. -/
def sampleScrapes : CrawlerType → ScrapeRet Unit :=
  fun t =>
    if t = .ONETRUST then .triple .PARSE_ERROR "onetrust scrape failed" []
    else .pair .SUCCESS "cookiebot result has no third component"

/-- A load-status map holding a REDIRECT for page a whose redirect target
b resolved to OK. -/
def redirectMap : String → Option PageState :=
  fun s =>
    if s = "https://a/" then some .REDIRECT
    else if s = "https://b/" then some .OK
    else none

/-! # Theorems -/

/-! ## Supporting lemmas -/

/-- Both branches of the final return of _variantA_get_and_parse_json hand
back an empty list: the SUCCESS branch returns the empty list literal and
the NO_COOKIES branch returns the data list, which has length zero there. -/
theorem variantA_result_list_empty (catEn catDe : String → CookieCategory)
    (fetch : String → PageState × Option Json) (domainUrl ddId : String)
    (rulesetIds : List (String × String))
    (out : Nat × CrawlState × String × List ConsentDataM)
    (h : variantA_get_and_parse_json catEn catDe fetch domainUrl ddId rulesetIds
        = .ok out) :
    out.2.2.2 = [] := by
  unfold variantA_get_and_parse_json at h
  split at h
  · exact absurd h (by simp)
  · split at h
    · rename_i hz
      cases h
      simpa using List.length_eq_zero.mp hz
    · cases h
      rfl

/-- Consequently the Variant A path of OnetrustCMP.scrape never returns a
non-empty ConsentData list, whatever the vendor endpoint serves. -/
theorem onetrust_scrape_variantA_list_empty (catEn catDe : String → CookieCategory)
    (fetch : String → PageState × Option Json) (domainUrl ddId : String)
    (rulesetIds : List (String × String))
    (out : CrawlState × String × List ConsentDataM)
    (h : onetrust_scrape_variantA catEn catDe fetch domainUrl ddId rulesetIds
        = .ok out) :
    out.2.2 = [] := by
  unfold onetrust_scrape_variantA at h
  split at h
  · exact absurd h (by simp)
  · rename_i q cookieCount state report data hv
    have hdata : data = [] := by
      simpa using
        variantA_result_list_empty catEn catDe fetch domainUrl ddId rulesetIds _ hv
    split at h
    · cases h
      rfl
    · cases h
      simpa using hdata

/-! ## Claim C10 (orphan sweep) -/

/-- Claim C10 counterexample: a process whose name matches chrome and whose
age (10000 seconds) is far beyond 4 times the configured timeout (600) is
left alone by both sweeps when its create time is 0, because the falsy
create_time() short-circuits the age check; the claim says every such
process is killed. -/
theorem orphan_sweep_zero_create_time_not_killed :
    strContains "chrome" "chrome" = true
      ∧ (10000 : Int) - 0 ≥ 600 * 4
      ∧ killBrowsersDeamonAction 10000 600 ⟨"chrome", 0, false⟩ = .leaveAlone
      ∧ checkWatcherAction 10000 600 ⟨"chrome", 0, false⟩ = .leaveAlone
      ∧ SweepAction.leaveAlone ≠ SweepAction.kill :=
  ⟨by decide, by decide, rfl, rfl, by decide⟩

/-- Claim C10 amended: on each sweep tick, a process whose name contains
chrome, whose create time is nonzero (truthy) and whose age is at least
4 times the timeout is killed (_kill_browsers_deamon reaps it with waitpid
instead when it is a zombie; check() always kills); every matching process
younger than the threshold, and every non-matching process, is left
alone. -/
theorem orphan_sweep_amended :
    ∀ (nowTs timeout : Int) (p : OsProc),
      strContains p.name "chrome" = true →
        (p.createTime ≠ 0 → nowTs - p.createTime ≥ timeout * 4 →
            killBrowsersDeamonAction nowTs timeout p
                = (if p.isZombie then .reapZombie else .kill)
              ∧ checkWatcherAction nowTs timeout p = .kill)
          ∧ (¬ nowTs - p.createTime ≥ timeout * 4 →
              killBrowsersDeamonAction nowTs timeout p = .leaveAlone
                ∧ checkWatcherAction nowTs timeout p = .leaveAlone)
          ∧ (∀ q : OsProc, strContains q.name "chrome" = false →
              killBrowsersDeamonAction nowTs timeout q = .leaveAlone
                ∧ checkWatcherAction nowTs timeout q = .leaveAlone) := by
  intro nowTs timeout p hname
  refine ⟨?_, ?_, ?_⟩
  · intro hct hage
    constructor
    · simp [killBrowsersDeamonAction, hname, hct, hage]
    · simp [checkWatcherAction, hname, hct, hage]
  · intro hage
    constructor
    · simp [killBrowsersDeamonAction, hname, hage]
    · simp [checkWatcherAction, hname, hage]
  · intro q hq
    constructor
    · simp [killBrowsersDeamonAction, hq]
    · simp [checkWatcherAction, hq]

/-- Witness for the amended C10 theorem at a concrete process: an old
non-zombie chrome process with a truthy create time is killed by both
sweeps. -/
theorem orphan_sweep_amended_witness :
    killBrowsersDeamonAction 10000 600 ⟨"chrome", 100, false⟩ = .kill
      ∧ checkWatcherAction 10000 600 ⟨"chrome", 100, false⟩ = .kill := by
  have h :=
    (orphan_sweep_amended 10000 600 ⟨"chrome", 100, false⟩ (by decide)).1
      (by decide) (by decide)
  simpa using h

/-! ## Claim C4 (crawl_cmps constructor TypeError) -/

/-- Claim C4: every call of CBConsentCrawlerBrowser.crawl_cmps with an
integer browser_id raises TypeError before any presence check or scrape
runs: CookiebotCMP(logger) is constructed first and its super().__init__
call omits the required browser_id parameter of AbstractCMP.__init__ (the
OnetrustCMP constructor has the same defect); the coordinator therefore
never returns a (CrawlerType, CrawlState, records, result) tuple. -/
theorem crawl_cmps_raises_type_error :
    (∀ (α : Type) (presence : CrawlerType → Bool)
        (scrape : CrawlerType → ScrapeRet α) (browserId visitId : Int),
        crawl_cmps false presence scrape browserId visitId
          = (.error .typeError, []))
      ∧ constructCookiebotCMP = .error .typeError
      ∧ constructOnetrustCMP = .error .typeError :=
  ⟨fun _ _ _ _ _ => rfl, rfl, rfl⟩

/-! ## Claim C3 (coordinator dispatch priority) -/

/-- Claim C3, proved of the dispatch logic of crawl_cmps past the detector
construction (the construction itself raises TypeError, see the C4
theorem): the vendor order is the fixed list OneTrust then Cookiebot; on a
page where both presence patterns match, only the OneTrust scrape is
invoked and its result is returned immediately even though that scrape
failed with PARSE_ERROR; on a page where no presence check succeeds the
coordinator returns FAILED, CMP_NOT_FOUND, an empty record list and the
no-known-CMP report. -/
theorem crawl_cmps_dispatch_priority :
    cmpPriorityOrder = [.ONETRUST, .COOKIEBOT]
      ∧ crawlCmpsDispatch bothPresent sampleScrapes 1 2
          = .ok (.ONETRUST, .PARSE_ERROR, [],
              ⟨1, 2, .PARSE_ERROR, .ONETRUST, "onetrust scrape failed"⟩)
      ∧ crawlCmpsEvents bothPresent
          = [.presenceCheck .ONETRUST, .presenceCheck .COOKIEBOT,
             .scrapeCall .ONETRUST]
      ∧ crawlCmpsDispatch nonePresent sampleScrapes 1 2
          = .ok (.FAILED, .CMP_NOT_FOUND, [],
              ⟨1, 2, .CMP_NOT_FOUND, .FAILED,
                "No known Consent Management Platform found on the given URL."⟩)
      ∧ crawlCmpsEvents nonePresent
          = [.presenceCheck .ONETRUST, .presenceCheck .COOKIEBOT] :=
  ⟨rfl, rfl, rfl, rfl, rfl⟩

/-! ## Claim C2 (one VisitResult per visit attempt) -/

/-- Claim C2 counterexample: a visit whose pool future raises TimeoutError
(the per-visit timeout elapsed) hands zero ConsentCrawlResult rows to the
persistence boundary — its URL goes to the retry list instead; the claim
says exactly one result is produced even under timeout. -/
theorem pool_timeout_persists_zero_results :
    (collectVisitResult (α := Unit) (β := Unit) "https://example.com"
        .poolTimeout).1.length = 0
      ∧ (collectVisitResult (α := Unit) (β := Unit) "https://example.com"
          .poolTimeout).2 = ["https://example.com"]
      ∧ (0 : Nat) ≠ 1 :=
  ⟨rfl, rfl, by decide⟩

/-- Claim C2 amended: run_domain_with_timeout itself always hands back
exactly one result (exceptions raised inside the worker are converted to a
FAILED / LIBRARY_ERROR row), and the single-browser loop merges exactly
that one row per visit; but in the worker-pool loop a visit is persisted
as one row only when its future delivers a value, while a pool timeout or
a pool-level exception (for example a crashed worker process) persists
zero rows and appends the URL to the retry list. -/
theorem visit_result_persistence_amended :
    (∀ (α β : Type) (browserId visitId : Int) (siteUrl : String)
        (o : RunDomainOutcome α β),
        (singleBrowserVisit browserId visitId siteUrl o).length = 1)
      ∧ (∀ (α β : Type) (browserId visitId : Int) (siteUrl excText : String),
          (run_domain_with_timeout (α := α) (β := β) browserId visitId siteUrl
              .raisesRetryable).1.1
            = ⟨browserId, visitId, .LIBRARY_ERROR, .FAILED,
                "Failure: TimeoutError: " ++ siteUrl⟩
          ∧ (run_domain_with_timeout (α := α) (β := β) browserId visitId siteUrl
              (.raisesOther excText)).1.1
            = ⟨browserId, visitId, .LIBRARY_ERROR, .FAILED,
                "Failure: " ++ excText⟩)
      ∧ (∀ (α β : Type) (siteUrl : String) (res : ConsentCrawlResultRec)
          (cds : List α) (cookies : List β),
          collectVisitResult siteUrl (.value res cds cookies) = ([res], []))
      ∧ (∀ (α β : Type) (siteUrl : String),
          collectVisitResult (α := α) (β := β) siteUrl .poolTimeout
              = ([], [siteUrl])
            ∧ collectVisitResult (α := α) (β := β) siteUrl .raisesOtherExc
              = ([], [siteUrl])) :=
  ⟨fun _ _ _ _ _ _ => rfl, fun _ _ _ _ _ _ => ⟨rfl, rfl⟩,
   fun _ _ _ _ _ _ => rfl, fun _ _ _ => ⟨rfl, rfl⟩⟩

/-! ## Claim C5 (missing load status) -/

/-- Claim C5 counterexample: the driver call succeeded, no load state was
recorded for the URL at either check, and load_page returns OK (the
source treats this as an anchor or single-page-app navigation, line 276)
rather than the UNKNOWN_ERROR the claim requires. -/
theorem load_page_missing_status_returns_ok :
    load_page .ok (fun _ => none) (fun _ => none)
        "https://example.com/" "https://example.com/" = .OK
      ∧ PageState.OK ≠ PageState.UNKNOWN_ERROR :=
  ⟨rfl, by decide⟩

/-- Claim C5 amended: when no load state is recorded for the normalized
URL at either check, load_page returns OK when the driver call raised no
error (the anchor or single-page-app case) and UNKNOWN_ERROR only when
driver.get raised a WebDriverException other than name-not-resolved; the
transport early-exits (TIMEOUT, DNS_ERROR) never consult the map. -/
theorem load_page_missing_status_amended :
    ∀ (m1 m2 : String → Option PageState) (url lastUrl : String),
      m1 url = none → m2 url = none →
        load_page .ok m1 m2 url lastUrl = .OK
          ∧ load_page (.wdExc false) m1 m2 url lastUrl = .UNKNOWN_ERROR
          ∧ load_page .timeoutExc m1 m2 url lastUrl = .TIMEOUT
          ∧ load_page (.wdExc true) m1 m2 url lastUrl = .DNS_ERROR := by
  intro m1 m2 url lastUrl h1 h2
  refine ⟨?_, ?_, rfl, rfl⟩ <;> simp [load_page, h1, h2]

/-- Witness for the amended C5 theorem at concrete empty maps. -/
theorem load_page_missing_status_amended_witness :
    load_page (.wdExc false) (fun _ => none) (fun _ => none)
        "https://a/" "https://a/" = .UNKNOWN_ERROR :=
  (load_page_missing_status_amended (fun _ => none) (fun _ => none)
      "https://a/" "https://a/" rfl rfl).2.1

/-! ## Claim C8 (Variant B states) -/

/-- Claim C8: for every fetched consent script, the Variant B parse
produces no data dictionary (hence no consent records); when the Groups
array literal is located in the stripped, newline-purged script the result
is LIBRARY_ERROR with the unsupported-variant report, and when it cannot
be located the result is PARSE_ERROR; two concrete scripts exercise both
branches. -/
theorem variantB_library_error_on_groups :
    (∀ (state : PageState) (content : String),
        (variantB_parse_script_for_object state content).1 = none)
      ∧ (∀ content : String,
          variantB_parse_script_for_object .OK content
            = (none,
                if (variantBSearch content).isSome
                then CrawlState.LIBRARY_ERROR else CrawlState.PARSE_ERROR,
                if (variantBSearch content).isSome
                then "ONETRUST: VARIANT B is not supported right now. Please report to the developer"
                else "ONETRUST: VARIANT B: Failed to find desired javascript object in Onetrust consent script."))
      ∧ variantB_parse_script_for_object .OK
            "var data = {Stuff: 1, Groups: [{Cookies: []}]};"
          = (none, .LIBRARY_ERROR,
              "ONETRUST: VARIANT B is not supported right now. Please report to the developer")
      ∧ variantB_parse_script_for_object .OK "no consent object in this script"
          = (none, .PARSE_ERROR,
              "ONETRUST: VARIANT B: Failed to find desired javascript object in Onetrust consent script.") := by
  refine ⟨?_, ?_, rfl, rfl⟩
  · intro state content
    unfold variantB_parse_script_for_object
    split
    · rfl
    · split <;> rfl
  · intro content
    unfold variantB_parse_script_for_object
    rw [if_neg (by simp)]
    cases hf : variantBSearch content <;> simp [hf]

/-! ## Claim C6 (network event classification) -/

/-- Claim C6 counterexample: a 200 response whose Content-Type header is
application/pdf (a disallowed, non-HTML content type) for the last
navigated URL is recorded as OK — the handler never produces
BAD_CONTENT_TYPE as the claim requires (the header is only logged). -/
theorem intercepted_bad_content_type_not_detected :
    getStatus (processInterceptedRequest (fun s => ⟨s, true⟩)
          (fun _ loc => loc)
          ⟨[], some ⟨"https://example.com/file.pdf", true⟩⟩
          ⟨"https://example.com/file.pdf", true⟩
          ⟨none, 200, none, some "application/pdf"⟩).loadStatus
        "https://example.com/file.pdf"
      = some .OK
      ∧ some PageState.OK ≠ some PageState.BAD_CONTENT_TYPE :=
  ⟨rfl, by decide⟩

/-- Claim C6 amended: for every event delivered for the last navigated
URL, _process_intercepted_request records exactly the state of the fixed
table without a BAD_CONTENT_TYPE row (NameNotResolved to DNS_ERROR,
TimedOut to TIMEOUT, other truthy error reasons to TCP_ERROR, 3xx with a
truthy Location to REDIRECT while advancing last_loaded_url to the
absolute resolution of the Location value, status at least 400 to
HTTP_ERROR, everything else — disallowed content types included — to OK);
the registered CDP callback _handle_cdp_response_received records only
HTTP_ERROR for status exactly 404 and OK for 2xx, and nothing for other
events. -/
theorem network_event_classification_amended :
    (∀ (fromText : String → Url) (click : Url → Url → Url)
        (st : TrackerState) (u : Url) (resp : CdpResponse),
        st.lastLoadedUrl = some u →
          processInterceptedRequest fromText click st u resp
            = { loadStatus :=
                  setStatus st.loadStatus u.text (classifyEventAmended resp),
                lastLoadedUrl :=
                  if ¬ pyTruthyStr resp.errorReason
                      ∧ 300 ≤ resp.httpStatus ∧ resp.httpStatus < 400
                      ∧ pyTruthyStr resp.location
                  then some (resolveLocation fromText click u resp)
                  else st.lastLoadedUrl })
      ∧ (∀ (st : TrackerState) (url : String) (s : Int),
          handleCdpResponseReceived st "Network.responseReceived" url s
            = if s = 404 then
                { st with loadStatus := setStatus st.loadStatus url .HTTP_ERROR }
              else if 200 ≤ s ∧ s < 300 then
                { st with loadStatus := setStatus st.loadStatus url .OK }
              else st)
      ∧ (∀ (st : TrackerState) (method url : String) (s : Int),
          method ≠ "Network.responseReceived" →
            handleCdpResponseReceived st method url s = st) := by
  refine ⟨?_, ?_, ?_⟩
  · intro fromText click st u resp h
    simp only [processInterceptedRequest, classifyEventAmended, h]
    split_ifs <;> simp_all
  · intro st url s
    simp only [handleCdpResponseReceived]
    split_ifs <;> simp_all
  · intro st method url s h
    simp [handleCdpResponseReceived, h]

/-- Witness for the amended C6 theorem: a NameNotResolved event for the
last navigated URL records DNS_ERROR. -/
theorem network_event_classification_amended_witness :
    getStatus (processInterceptedRequest (fun s => ⟨s, true⟩)
          (fun _ loc => loc) ⟨[], some ⟨"https://a/", true⟩⟩
          ⟨"https://a/", true⟩
          ⟨some "NameNotResolved", 0, none, none⟩).loadStatus "https://a/"
      = some .DNS_ERROR := by
  have h := network_event_classification_amended.1 (fun s => ⟨s, true⟩)
      (fun _ loc => loc) ⟨[], some ⟨"https://a/", true⟩⟩
      ⟨"https://a/", true⟩ ⟨some "NameNotResolved", 0, none, none⟩ rfl
  rw [h]
  rfl

/-! ## Claim C7 (redirect resolution) -/

/-- With no status stored for the URL, every amount of fuel ends in
UNKNOWN_ERROR (this branch is unreachable from load_page, which guards
the loop on the key being present). -/
theorem resolveLoop_url_absent (m : String → Option PageState)
    (url lastUrl : String) (h : m url = none) :
    ∀ n, resolveLoop m url lastUrl n = .UNKNOWN_ERROR := by
  intro n
  induction n with
  | zero => rfl
  | succ k ih => rw [resolveLoop, h]; exact ih

/-- A REDIRECT whose last-navigated target has no stored status retries
and falls out of the loop with UNKNOWN_ERROR, for every amount of fuel. -/
theorem resolveLoop_target_absent (m : String → Option PageState)
    (url lastUrl : String) (h1 : m url = some .REDIRECT)
    (h2 : m lastUrl = none) :
    ∀ n, resolveLoop m url lastUrl n = .UNKNOWN_ERROR := by
  intro n
  induction n with
  | zero => rfl
  | succ k ih => rw [resolveLoop, h1]; simp only [if_pos rfl, h2]; exact ih

/-- Closed form of the lookup loop for positive fuel: one lookup of the
URL, one hop through the last navigated URL on REDIRECT, UNKNOWN_ERROR
when that hop finds nothing. -/
theorem resolveLoop_eval (m : String → Option PageState)
    (url lastUrl : String) :
    ∀ n,
      resolveLoop m url lastUrl (n + 1)
        = match m url with
          | some .REDIRECT =>
            (match m lastUrl with
             | some s2 => s2
             | none => .UNKNOWN_ERROR)
          | some s => s
          | none => .UNKNOWN_ERROR := by
  intro n
  cases h1 : m url with
  | none => simp only [resolveLoop_url_absent m url lastUrl h1]
  | some s =>
    cases s with
    | REDIRECT =>
      cases h2 : m lastUrl with
      | none => simp only [resolveLoop_target_absent m url lastUrl h1 h2]
      | some s2 => rw [resolveLoop, h1]; simp [h2]
    | DNS_ERROR => rw [resolveLoop, h1]; rfl
    | OK => rw [resolveLoop, h1]; rfl
    | TIMEOUT => rw [resolveLoop, h1]; rfl
    | BAD_CONTENT_TYPE => rw [resolveLoop, h1]; rfl
    | HTTP_ERROR => rw [resolveLoop, h1]; rfl
    | TCP_ERROR => rw [resolveLoop, h1]; rfl
    | UNKNOWN_ERROR => rw [resolveLoop, h1]; rfl

/-- Claim C7 counterexample: the map already holds REDIRECT for the URL at
the first post-settle check and OK for the redirect target, yet load_page
returns the raw REDIRECT from the first-check early return (line 239)
without following LastNavigatedURL; the claim says every navigation whose
recorded state is REDIRECT has its chain resolved (here to OK). -/
theorem load_page_first_check_redirect_unresolved :
    redirectMap "https://a/" = some .REDIRECT
      ∧ redirectMap "https://b/" = some .OK
      ∧ load_page .ok redirectMap redirectMap "https://a/" "https://b/"
          = .REDIRECT
      ∧ PageState.REDIRECT ≠ PageState.OK :=
  ⟨rfl, rfl, rfl, by decide⟩

/-- Claim C7 amended: the redirect resolution runs only when the first
map check missed and the re-check after the escape key found the URL;
it then follows LastNavigatedURL through a single lookup retried at most
3 times, always terminates (extra tries never change the result, so a
recorded redirect cycle just returns REDIRECT), and degrades to
UNKNOWN_ERROR when the target state is absent; a REDIRECT present at the
first check is returned unresolved. -/
theorem redirect_resolution_amended :
    (∀ (m1 m2 : String → Option PageState) (url lastUrl : String),
        m1 url = none → m2 url = some .REDIRECT →
          load_page .ok m1 m2 url lastUrl
            = match m2 lastUrl with
              | some s => s
              | none => .UNKNOWN_ERROR)
      ∧ (∀ (m : String → Option PageState) (url lastUrl : String) (n : Nat),
          resolveLoop m url lastUrl (n + 1) = resolveLoop m url lastUrl 1)
      ∧ (∀ (m : String → Option PageState) (url lastUrl : String),
          m url = some .REDIRECT → m lastUrl = none →
            resolveLoop m url lastUrl 3 = .UNKNOWN_ERROR)
      ∧ (∀ (m : String → Option PageState) (url lastUrl : String),
          m url = some .REDIRECT → m lastUrl = some .REDIRECT →
            resolveLoop m url lastUrl 3 = .REDIRECT)
      ∧ (∀ (m1 : String → Option PageState) (url lastUrl : String),
          m1 url = some .REDIRECT →
            ∀ m2, load_page .ok m1 m2 url lastUrl = .REDIRECT) := by
  refine ⟨?_, ?_, ?_, ?_, ?_⟩
  · intro m1 m2 url lastUrl h1 h2
    show (match m1 url with
          | some s => s
          | none =>
            match m2 url with
            | some _ => resolveLoop m2 url lastUrl 3
            | none => PageState.OK) = _
    rw [h1, h2]
    rw [show (3 : Nat) = 2 + 1 from rfl, resolveLoop_eval, h2]
  · intro m url lastUrl n
    rw [resolveLoop_eval, show (1 : Nat) = 0 + 1 from rfl, resolveLoop_eval]
  · intro m url lastUrl h1 h2
    exact resolveLoop_target_absent m url lastUrl h1 h2 3
  · intro m url lastUrl h1 h2
    rw [show (3 : Nat) = 2 + 1 from rfl, resolveLoop_eval, h1, h2]
  · intro m1 url lastUrl h1 m2
    show (match m1 url with
          | some s => s
          | none =>
            match m2 url with
            | some _ => resolveLoop m2 url lastUrl 3
            | none => PageState.OK) = _
    rw [h1]

/-- Witness for the amended C7 theorem: with the status absent at the
first check and REDIRECT recorded at the second, load_page resolves the
chain through the last navigated URL to OK. -/
theorem redirect_resolution_amended_witness :
    load_page .ok (fun _ => none) redirectMap "https://a/" "https://b/"
      = .OK := by
  have h := redirect_resolution_amended.1 (fun _ => none) redirectMap
      "https://a/" "https://b/" rfl rfl
  rw [h]
  rfl

/-! ## Claim C9 (bracket scanner) -/

theorem scanFold_cons (c : Char) (s : List Char) (st : Nat × Bool) :
    scanFold (c :: s) st = scanFold s (scanStep c st) := rfl

/-- With the bracket depth already at zero the loop condition fails at
once and nothing is consumed. -/
theorem scan_zero_open (s : List Char) (st : Nat × Bool) (h : st.1 = 0) :
    scan s st = 0 := by
  cases s with
  | nil => rfl
  | cons c rest => rw [scan, if_pos h]

/-- The scan consumes at most the whole string. -/
theorem scan_le_length :
    ∀ (s : List Char) (st : Nat × Bool), scan s st ≤ s.length := by
  intro s
  induction s with
  | nil => intro st; simp [scan]
  | cons c rest ih =>
    intro st
    by_cases h : st.1 = 0
    · simp [scan, h]
    · have := ih (scanStep c st)
      rw [scan, if_neg h]
      simp only [List.length_cons]
      omega

/-- Before the stop position the quote-aware bracket depth stays
positive: the scan never stops early. -/
theorem scan_prefix_pos :
    ∀ (s : List Char) (st : Nat × Bool), 0 < st.1 →
      ∀ j, j < scan s st → 0 < (scanFold (List.take j s) st).1 := by
  intro s
  induction s with
  | nil => intro st h j hj; simp [scan] at hj
  | cons c rest ih =>
    intro st h j hj
    have hne : ¬ st.1 = 0 := by omega
    rw [scan, if_neg hne] at hj
    cases j with
    | zero => simpa [scanFold] using h
    | succ j =>
      have hj2 : j < scan rest (scanStep c st) := by omega
      have hpos : 0 < (scanStep c st).1 := by
        by_contra hz
        have hz0 : (scanStep c st).1 = 0 := by omega
        rw [scan_zero_open rest (scanStep c st) hz0] at hj2
        omega
      have := ih (scanStep c st) hpos j hj2
      simpa [List.take_succ_cons, scanFold_cons] using this

/-- At the stop position the depth has reached zero, unless the scan ran
off the end of the string. -/
theorem scan_stop_zero_or_end :
    ∀ (s : List Char) (st : Nat × Bool), 0 < st.1 →
      (scanFold (List.take (scan s st) s) st).1 = 0
        ∨ scan s st = s.length := by
  intro s
  induction s with
  | nil => intro st _; right; simp [scan]
  | cons c rest ih =>
    intro st h
    have hne : ¬ st.1 = 0 := by omega
    rw [scan, if_neg hne]
    by_cases hz : (scanStep c st).1 = 0
    · left
      rw [scan_zero_open rest (scanStep c st) hz]
      simpa [List.take_succ_cons, scanFold_cons] using hz
    · have hpos : 0 < (scanStep c st).1 := by omega
      rcases ih (scanStep c st) hpos with h1 | h1
      · left
        simpa [List.take_succ_cons, scanFold_cons] using h1
      · right
        simp [h1]

/-- A step that brings the depth from positive to zero consumes an
unquoted closing bracket. -/
theorem scanStep_to_zero (c : Char) (st : Nat × Bool)
    (h : 0 < st.1) (hz : (scanStep c st).1 = 0) : c = ']' := by
  by_contra hcne
  simp only [scanStep] at hz
  split_ifs at hz <;> omega

/-- When the depth reaches zero, the last character the scan consumed is
the closing bracket that matches the opening one. -/
theorem scan_stop_char :
    ∀ (s : List Char) (st : Nat × Bool), 0 < st.1 →
      (scanFold (List.take (scan s st) s) st).1 = 0 →
      List.getD s (scan s st - 1) ' ' = ']' := by
  intro s
  induction s with
  | nil =>
    intro st h h0
    simp [scan, scanFold] at h0
    omega
  | cons c rest ih =>
    intro st h h0
    have hne : ¬ st.1 = 0 := by omega
    rw [scan, if_neg hne] at h0 ⊢
    by_cases hz : (scanStep c st).1 = 0
    · have hc : c = ']' := scanStep_to_zero c st h hz
      rw [scan_zero_open rest (scanStep c st) hz]
      simpa using hc
    · have hpos : 0 < (scanStep c st).1 := by omega
      by_cases hB : scan rest (scanStep c st) = 0
      · rw [hB] at h0
        simp [List.take_succ_cons, scanFold_cons, scanFold] at h0
        omega
      · have h0b : (scanFold (List.take (scan rest (scanStep c st)) rest)
            (scanStep c st)).1 = 0 := by
          simpa [List.take_succ_cons, scanFold_cons] using h0
        have hrec := ih (scanStep c st) hpos h0b
        rw [show scan rest (scanStep c st) + 1 - 1
            = (scan rest (scanStep c st) - 1) + 1 by omega]
        simpa [List.getD_cons_succ] using hrec

/-- Inside a double-quoted literal every character leaves the scanner
state untouched: brackets and commas in string values never change the
depth. -/
theorem scanFold_inquote :
    ∀ (v : List Char), '"' ∉ v → ∀ opn : Nat,
      scanFold v (opn, true) = (opn, true) := by
  intro v
  induction v with
  | nil => intro _ opn; rfl
  | cons c rest ih =>
    intro hv opn
    have hc : ¬ c = '"' := by
      intro h
      exact hv (by simp [h])
    have hrest : '"' ∉ rest := fun h => hv (List.mem_cons_of_mem c h)
    rw [scanFold_cons, show scanStep c (opn, true) = (opn, true) by
      simp [scanStep, hc]]
    exact ih hrest opn

/-- While inside a quoted literal the scan marches through it character
by character without stopping. -/
theorem scan_inquote :
    ∀ (v tail : List Char), '"' ∉ v → ∀ opn : Nat, ¬ opn = 0 →
      scan (v ++ tail) (opn, true) = v.length + scan tail (opn, true) := by
  intro v
  induction v with
  | nil => intro tail _ opn _; simp
  | cons c rest ih =>
    intro tail hv opn hopn
    have hc : ¬ c = '"' := by
      intro h
      exact hv (by simp [h])
    have hrest : '"' ∉ rest := fun h => hv (List.mem_cons_of_mem c h)
    rw [List.cons_append, scan,
      if_neg (show ¬ ((opn, true) : Nat × Bool).1 = 0 from hopn),
      show scanStep c (opn, true) = (opn, true) by simp [scanStep, hc],
      ih tail hrest opn hopn]
    simp only [List.length_cons]
    omega

/-- A complete double-quoted literal (opening quote, any quote-free body,
closing quote) contributes exactly its own length to the scan position:
the stop point past it is independent of the brackets or commas it
contains. -/
theorem scan_quoted_literal :
    ∀ (v rest : List Char), '"' ∉ v → ∀ opn : Nat, 0 < opn →
      scan ('"' :: (v ++ '"' :: rest)) (opn, false)
        = v.length + 2 + scan rest (opn, false) := by
  intro v rest hv opn h
  have hne : ¬ opn = 0 := by omega
  rw [scan, if_neg (show ¬ ((opn, false) : Nat × Bool).1 = 0 from hne),
    show scanStep '"' (opn, false) = (opn, true) by simp [scanStep],
    scan_inquote v ('"' :: rest) hv opn hne,
    scan, if_neg (show ¬ ((opn, true) : Nat × Bool).1 = 0 from hne),
    show scanStep '"' (opn, true) = (opn, false) by simp [scanStep]]
  omega

/-- Claim C9: the Variant B bracket scanner (started with depth 1 right
after the matched Groups opening bracket) satisfies: a quoted string
literal shifts the stop point exactly by its own length, whatever
brackets or commas it contains; the depth stays positive strictly before
the stop position; at the stop position the depth is zero unless the
string ended first; and when the depth reaches zero the character consumed
last is the matching unquoted closing bracket. -/
theorem bracket_scanner_correct :
    (∀ (v rest : List Char), '"' ∉ v → ∀ opn : Nat, 0 < opn →
        scan ('"' :: (v ++ '"' :: rest)) (opn, false)
          = v.length + 2 + scan rest (opn, false))
      ∧ (∀ (s : List Char) (st : Nat × Bool), 0 < st.1 →
          (∀ j, j < scan s st → 0 < (scanFold (List.take j s) st).1)
            ∧ ((scanFold (List.take (scan s st) s) st).1 = 0
                ∨ scan s st = s.length)
            ∧ ((scanFold (List.take (scan s st) s) st).1 = 0 →
                List.getD s (scan s st - 1) ' ' = ']')) :=
  ⟨scan_quoted_literal,
   fun s st h =>
     ⟨scan_prefix_pos s st h, scan_stop_zero_or_end s st h,
      scan_stop_char s st h⟩⟩

/-- Witness for the C9 theorem at concrete inputs: a description field
containing literal brackets and commas inside quotes shifts the stop
point only by its length, and on a concrete Groups body the scan stops
at the matching bracket. -/
theorem bracket_scanner_correct_witness :
    scan ('"' :: ("desc [1,2],x".toList ++ '"' :: "]rest".toList)) (1, false)
        = "desc [1,2],x".toList.length + 2 + scan "]rest".toList (1, false)
      ∧ ((scanFold (List.take (scan "{a}]tail".toList (1, false))
            "{a}]tail".toList) (1, false)).1 = 0 →
          List.getD "{a}]tail".toList (scan "{a}]tail".toList (1, false) - 1)
              ' ' = ']') := by
  constructor
  · exact bracket_scanner_correct.1 "desc [1,2],x".toList "]rest".toList
      (by decide) 1 (by decide)
  · exact (bracket_scanner_correct.2 "{a}]tail".toList (1, false)
      (by decide)).2.2

/-! ## Claim C1 (SUCCESS iff non-empty record list) -/

/-- Claim C1, evaluated at the failing input: a Variant A crawl whose
ruleset JSON holds exactly one cookie ends in the SUCCESS branch of
_variantA_get_and_parse_json, which reports one extracted cookie yet
returns the empty list (the collected data is discarded), so
OnetrustCMP.scrape answers SUCCESS with zero ConsentData records — the
converse also fails structurally for Cookiebot, whose scrape returns a
2-tuple with no record list at all (NO_COOKIES on a zero count).  The
row the sample parse collects and then drops is sampleConsentRow. -/
theorem onetrust_variantA_success_discards_data :
    variantA_get_and_parse_json sampleCatLookup sampleCatLookup sampleFetch
        "https://cdn.cookielaw.org" "dd-uuid" [("en", "ruleset1")]
      = .ok (1, .SUCCESS, "ONETRUST: VARIANT A: Cookies Extracted: 1", [])
      ∧ onetrust_scrape_variantA sampleCatLookup sampleCatLookup sampleFetch
          "https://cdn.cookielaw.org" "dd-uuid" [("en", "ruleset1")]
        = .ok (.SUCCESS, "Extracted 1 cookie entries.", [])
      ∧ variantALoop sampleCatLookup sampleCatLookup sampleFetch
          "https://cdn.cookielaw.org" "dd-uuid" [("en", "ruleset1")] []
        = .ok [sampleConsentRow]
      ∧ cookiebot_scrape_tail 0 "https://consent.cookiebot.com/x/cc.js"
        = (.NO_COOKIES,
            "COOKIEBOT: No cookies found in https://consent.cookiebot.com/x/cc.js") :=
  ⟨rfl, rfl, rfl, rfl⟩

end CBCC
